import Mathlib

/-!
Verification development for the lynx release-reconciliation scripts
(`release_plugins.py` and `release_main.py`).

The mutating collaborator calls (git tag commands, GitHub release
requests, file writes) are modelled as an explicit trace of `Call`
values; the outcome of each underlying collaborator invocation is
supplied by a `StepOutcome` record, so every function of the scripts
becomes a pure Lean function returning its result together with the
list of mutating calls it issued, in order.
-/

namespace Lynx

/-- One mutating collaborator call, as issued by the scripts.
`deleteRelease`/`createRelease` are GitHub API requests, the tag
constructors are git commands run in the target's working directory,
and `writeBanner`/`gitAdd`/`gitCommit` are the banner-sync mutations of
`release_main.py`. -/
inductive Call where
  | deleteRelease (releaseId : Nat)
  | deleteRemoteTag (tag : String)
  | deleteLocalTag (tag : String)
  | createLocalTag (tag : String)
  | pushTag (tag : String)
  | createRelease (tag name body : String)
  | writeBanner
  | gitAdd
  | gitCommit
deriving DecidableEq, Repr

/-- Success/failure of each underlying collaborator invocation, fixed in
advance: `deleteReleaseOk` is the result of the DELETE release request,
the tag fields are the exit status (success = `true`) of the
corresponding git command, `createReleaseOk` the result of the POST
release request. -/
structure StepOutcome where
  deleteReleaseOk : Bool
  deleteRemoteTagOk : Bool
  deleteLocalTagOk : Bool
  createLocalTagOk : Bool
  pushTagOk : Bool
  createReleaseOk : Bool
deriving DecidableEq, Repr

/-- The all-success outcome: every collaborator call succeeds. -/
def allOk : StepOutcome := ⟨true, true, true, true, true, true⟩

/-- `delete_local_tag` of release_plugins.py: in dry-run mode it prints
and returns `True` without running git; live it runs `git tag -d` and
returns whether the command succeeded. -/
def delete_local_tag (tag : String) (dryRun gitOk : Bool) : Bool × List Call :=
  if dryRun then (true, []) else (gitOk, [Call.deleteLocalTag tag])

/-- `create_local_tag` of release_plugins.py: dry-run prints only; live
runs `git tag` and reports its success. -/
def create_local_tag (tag : String) (dryRun gitOk : Bool) : Bool × List Call :=
  if dryRun then (true, []) else (gitOk, [Call.createLocalTag tag])

/-- `push_tag` of release_plugins.py: dry-run prints only; live runs
`git push origin <tag>` and reports its success. -/
def push_tag (tag : String) (dryRun gitOk : Bool) : Bool × List Call :=
  if dryRun then (true, []) else (gitOk, [Call.pushTag tag])

/-- `delete_remote_tag` of release_plugins.py: dry-run prints only; live
runs `git push origin --delete <tag>` and reports its success. -/
def delete_remote_tag (tag : String) (dryRun gitOk : Bool) : Bool × List Call :=
  if dryRun then (true, []) else (gitOk, [Call.deleteRemoteTag tag])

/-- `GitHubAPI.delete_release`: dry-run prints only and returns `True`;
live sends the DELETE request and reports whether it returned 204. -/
def delete_release (releaseId : Nat) (dryRun ok : Bool) : Bool × List Call :=
  if dryRun then (true, []) else (ok, [Call.deleteRelease releaseId])

/-- `GitHubAPI.create_release`: dry-run prints only and returns `True`;
live sends the POST request and reports whether it returned 201. -/
def create_release (tag name body : String) (dryRun ok : Bool) : Bool × List Call :=
  if dryRun then (true, []) else (ok, [Call.createRelease tag name body])

/-- `GitHubAPI.get_release_by_tag`, as a function of the HTTP status
code of the GET response (with `releaseId` the id carried by the JSON
body when one is returned): 200 returns the release, 404 returns
`none`, and otherwise `response.raise_for_status()` is called, which
raises exactly when the status code is in [400, 600). -/
def get_release_by_tag (status releaseId : Nat) : Except Unit (Option Nat) :=
  if status = 200 then .ok (some releaseId)
  else if status = 404 then .ok none
  else if 400 ≤ status ∧ status < 600 then .error ()
  else .ok none

/-- Steps 2–6 of `process_plugin` (reached once step 1, the release
cleanup, has not aborted): delete remote tag and delete local tag with
their results ignored, then create local tag, push tag, and (when a
GitHub API client exists) create the release, each of the last three
aborting on failure. `acc` is the trace accumulated by step 1. -/
def plugin_steps_2_to_6 (tag pluginName : String) (hasApi : Bool)
    (o : StepOutcome) (dryRun : Bool) (acc : List Call) : Bool × List Call :=
  let r2 := delete_remote_tag tag dryRun o.deleteRemoteTagOk
  let r3 := delete_local_tag tag dryRun o.deleteLocalTagOk
  let t3 := acc ++ r2.2 ++ r3.2
  let r4 := create_local_tag tag dryRun o.createLocalTagOk
  let t4 := t3 ++ r4.2
  if r4.1 = false then (false, t4)
  else
    let r5 := push_tag tag dryRun o.pushTagOk
    let t5 := t4 ++ r5.2
    if r5.1 = false then (false, t5)
    else if hasApi then
      let r6 := create_release tag tag ("Release " ++ tag ++ " for " ++ pluginName)
        dryRun o.createReleaseOk
      let t6 := t5 ++ r6.2
      if r6.1 = false then (false, t6) else (true, t6)
    else (true, t5)

/-- `process_plugin` of release_plugins.py. `dirExists` and `gitRepo`
are the two directory checks; `hasApi` says a `GitHubAPI` client was
supplied; `lookup` is what `get_release_by_tag` returns for this target
(`.error` when the GET raised). Step 1 deletes an existing release and
aborts on failure; an exception from the lookup propagates out (it is
caught by `main`'s per-plugin try/except). Returns the overall success
flag together with the trace of mutating calls. -/
def process_plugin (tag pluginName : String) (dirExists gitRepo hasApi : Bool)
    (lookup : Except Unit (Option Nat)) (o : StepOutcome) (dryRun : Bool) :
    Except Unit (Bool × List Call) :=
  if dirExists = false then .ok (false, [])
  else if gitRepo = false then .ok (false, [])
  else if hasApi then
    match lookup with
    | .error e => .error e
    | .ok (some releaseId) =>
      let r1 := delete_release releaseId dryRun o.deleteReleaseOk
      if r1.1 = false then .ok (false, r1.2)
      else .ok (plugin_steps_2_to_6 tag pluginName hasApi o dryRun r1.2)
    | .ok none => .ok (plugin_steps_2_to_6 tag pluginName hasApi o dryRun [])
  else .ok (plugin_steps_2_to_6 tag pluginName hasApi o dryRun [])

/-- The trace of mutating calls of a `process_plugin` run (empty when
the run ended in an exception, since the lookup is the first
collaborator touched and is itself non-mutating). -/
def traceOf : Except Unit (Bool × List Call) → List Call
  | .ok (_, t) => t
  | .error _ => []

/-- The overall success flag of a `process_plugin` run (an exception
counts as failure, as `main`'s except-branch records it). -/
def okOf : Except Unit (Bool × List Call) → Bool
  | .ok (b, _) => b
  | .error _ => false

/-- Python's `version.startswith("v")`: the first character is `'v'`. -/
def startsWithV (s : String) : Bool :=
  s.data.head? = some 'v'

/-- The version-format handling shared by both scripts (release_main.py
and release_plugins.py validate identically): if the input does not
start with `"v"`, a warning is printed and `"v"` is prepended; no other
check is performed and no input is ever rejected. -/
def normalize (version : String) : String :=
  if startsWithV version then version else "v" ++ version

/-- The claim's notion of a well-formed version body (stated from the
spec, for use in theorem statements only): after stripping an optional
leading `'v'`, every character is a digit or a dot. -/
def bodyValid (version : String) : Bool :=
  let body := if startsWithV version then version.data.drop 1 else version.data
  body.all (fun c => c.isDigit || c = '.')

/-- One plugin entry as the `main` loop of release_plugins.py sees it:
its configured name, whether its sibling directory exists (checked both
in the loop and inside `process_plugin`), whether the directory is a
git checkout, whether its `repo` field splits as `owner/name`, what the
release lookup would return for it, and the outcomes of its
collaborator calls. -/
structure PluginSpec where
  name : String
  dirExists : Bool
  gitRepo : Bool
  repoValid : Bool
  lookup : Except Unit (Option Nat)
  outcome : StepOutcome
deriving Repr

/-- One iteration of the plugin loop of release_plugins.py's `main`:
a missing directory or (when a token was given) an unsplittable repo
string records a failure and continues; otherwise `process_plugin` runs
under a try/except that turns an exception into a failure for this
plugin only. Returns whether the plugin is counted as a success. -/
def process_target (version : String) (hasToken dryRun : Bool) (p : PluginSpec) : Bool :=
  if p.dirExists = false then false
  else if hasToken ∧ p.repoValid = false then false
  else
    match process_plugin version p.name p.dirExists p.gitRepo hasToken
      p.lookup p.outcome dryRun with
    | .error _ => false
    | .ok (b, _) => b

/-- The plugin loop of release_plugins.py's `main`: targets are
processed sequentially in list order, each one adding either to the
success count or to the failed-plugins list. -/
def runTargets (version : String) (hasToken dryRun : Bool) :
    List PluginSpec → Nat × List String
  | [] => (0, [])
  | p :: rest =>
    let r := runTargets version hasToken dryRun rest
    if process_target version hasToken dryRun p then (r.1 + 1, r.2)
    else (r.1, p.name :: r.2)

/-- `main` of release_plugins.py, from argument handling to process
exit. The version is normalized (never rejected); a config-load
failure, an empty enabled-plugin list, or a `--plugin` filter matching
nothing each exit with status 1 before any target is processed;
otherwise the plugin loop runs, the summary is printed, and `main`
falls through, so the process exits with status 0 whatever the
per-plugin outcomes. Returns the exit status and, when the loop ran,
the `(success count, failed plugins)` summary. -/
def release_plugins_main (rawVersion : String) (hasToken dryRun configOk : Bool)
    (plugins : List PluginSpec) (filterName : Option String) :
    Nat × Option (Nat × List String) :=
  let version := normalize rawVersion
  if configOk = false then (1, none)
  else if plugins.isEmpty then (1, none)
  else
    match filterName with
    | some n =>
      let sel := plugins.filter (fun p => p.name = n)
      if sel.isEmpty then (1, none)
      else (0, some (runTargets version hasToken dryRun sel))
    | none => (0, some (runTargets version hasToken dryRun plugins))

/-- `sync_banner_version` of release_main.py: a missing banner file or
an already-matching version means no change (returns `false`); a needed
change returns `true`, writing the file only when not in dry-run mode. -/
def sync_banner_version (bannerExists needsChange dryRun : Bool) : Bool × List Call :=
  if bannerExists = false then (false, [])
  else if needsChange = false then (false, [])
  else if dryRun then (true, [])
  else (true, [Call.writeBanner])

/-- Steps "create local tag / push tag / create GitHub release" of
release_main.py's `main` (lines after the cleanup section): each step
is replaced by a printed message in dry-run mode; live, a failed tag
creation or push exits with status 1, and a failed release creation
(attempted only when a token produced an API client) exits with
status 1. Falling through ends the process with status 0. -/
def main_tail (version : String) (dryRun hasToken : Bool) (o : StepOutcome)
    (acc : List Call) : Nat × List Call :=
  let s4 := if dryRun then (true, acc) else (o.createLocalTagOk, acc ++ [Call.createLocalTag version])
  if s4.1 = false then (1, s4.2)
  else
    let s5 := if dryRun then (true, s4.2) else (o.pushTagOk, s4.2 ++ [Call.pushTag version])
    if s5.1 = false then (1, s5.2)
    else if hasToken then
      let r6 := create_release version version ("Release " ++ version ++ " of lynx framework")
        dryRun o.createReleaseOk
      let t6 := s5.2 ++ r6.2
      if r6.1 = false then (1, t6) else (0, t6)
    else (0, s5.2)

/-- `main` of release_main.py from the token prompt onward. Without a
token and outside dry-run, the user is asked whether to continue
without a release; with uncommitted changes and outside dry-run, the
user is asked whether to continue; declining either exits with
status 0. The banner sync then possibly writes, stages and commits the
banner file (live only). An existing local tag and an existing remote
tag are each deleted after confirmation (declining cancels with
status 0; in dry-run only a message is printed). With an API client,
an existing release is deleted, a failed deletion exiting with
status 1 and a lookup exception crashing the process (nonzero exit);
then the tail steps run. Returns the exit status and the mutation
trace. -/
def main_flow (version : String) (dryRun hasToken confirmNoToken : Bool)
    (uncommitted confirmUncommitted : Bool)
    (bannerExists bannerNeedsChange : Bool)
    (localTagExists confirmLocal : Bool)
    (remoteTagExists confirmRemote : Bool)
    (lookup : Except Unit (Option Nat)) (o : StepOutcome) : Nat × List Call :=
  if hasToken = false ∧ dryRun = false ∧ confirmNoToken = false then (0, [])
  else if uncommitted ∧ dryRun = false ∧ confirmUncommitted = false then (0, [])
  else
    let sb := sync_banner_version bannerExists bannerNeedsChange dryRun
    let t0 := if sb.1 ∧ dryRun = false then sb.2 ++ [Call.gitAdd, Call.gitCommit] else sb.2
    if localTagExists ∧ dryRun = false ∧ confirmLocal = false then (0, t0)
    else
      let t1 := if localTagExists ∧ dryRun = false then t0 ++ [Call.deleteLocalTag version] else t0
      if remoteTagExists ∧ dryRun = false ∧ confirmRemote = false then (0, t1)
      else
        let t2 := if remoteTagExists ∧ dryRun = false then t1 ++ [Call.deleteRemoteTag version] else t1
        if hasToken then
          match lookup with
          | .error _ => (1, t2)
          | .ok (some releaseId) =>
            let r1 := delete_release releaseId dryRun o.deleteReleaseOk
            let t3 := t2 ++ r1.2
            if r1.1 = false then (1, t3)
            else main_tail version dryRun hasToken o t3
          | .ok none => main_tail version dryRun hasToken o t2
        else main_tail version dryRun hasToken o t2

/-- Does this call touch the hosted-release API (delete or create a
GitHub release)? -/
def isReleaseCall : Call → Bool
  | .deleteRelease _ => true
  | .createRelease _ _ _ => true
  | _ => false

lemma runTargets_characterization (v : String) (t d : Bool) (ps : List PluginSpec) :
    runTargets v t d ps
      = ((ps.filter (fun p => process_target v t d p)).length,
         (ps.filter (fun p => !(process_target v t d p))).map PluginSpec.name) := by
  induction ps with
  | nil => simp [runTargets]
  | cons p rest ih =>
    cases h : process_target v t d p <;>
      simp [runTargets, ih, h]

lemma filter_length_split (f : PluginSpec → Bool) (ps : List PluginSpec) :
    (ps.filter f).length + (ps.filter (fun p => !(f p))).length = ps.length := by
  induction ps with
  | nil => simp
  | cons p rest ih => cases h : f p <;> simp [h, ih] <;> omega

/-- C8: in a multi-target run the report has exactly one outcome per
target: the success count is the number of targets whose own processing
succeeded, the failed list is exactly the names of the targets whose
own processing failed (in order), and the two counts sum to the number
of targets — so one target's failure never prevents the others from
being processed and recorded. -/
theorem run_report_one_outcome_per_target (v : String) (hasToken dryRun : Bool)
    (ps : List PluginSpec) :
    runTargets v hasToken dryRun ps
      = ((ps.filter (fun p => process_target v hasToken dryRun p)).length,
         (ps.filter (fun p => !(process_target v hasToken dryRun p))).map PluginSpec.name)
    ∧ (runTargets v hasToken dryRun ps).1 + (runTargets v hasToken dryRun ps).2.length
        = ps.length := by
  refine ⟨runTargets_characterization v hasToken dryRun ps, ?_⟩
  rw [runTargets_characterization]
  simpa using filter_length_split (fun p => process_target v hasToken dryRun p) ps

/-- C2 counterexample: a run whose single target fails (its directory
is missing) still ends with process exit status 0 — the summary lists
the failure but `main` falls through without `sys.exit`, so the exit
status is success even though a target failed. -/
theorem exit_status_ignores_failures_cex :
    release_plugins_main "v1.0.0" false false true
      [⟨"p1", false, true, true, .ok none, allOk⟩] none
      = (0, some (0, ["p1"])) := by
  decide

/-- C2 amended: whenever the plugin loop actually ran (a summary was
produced), the process exit status is 0, regardless of how many targets
failed; per-target failures are reported only inside the summary. -/
theorem exit_status_always_zero_after_run (rawV : String)
    (hasToken dryRun configOk : Bool) (plugins : List PluginSpec)
    (filterName : Option String) (r : Nat × List String)
    (h : (release_plugins_main rawV hasToken dryRun configOk plugins filterName).2 = some r) :
    (release_plugins_main rawV hasToken dryRun configOk plugins filterName).1 = 0 := by
  unfold release_plugins_main at h ⊢
  cases configOk with
  | false => simp at h
  | true =>
    cases plugins with
    | nil => simp at h
    | cons p rest =>
      cases filterName with
      | none => simp
      | some n =>
        by_cases hsel : ((p :: rest).filter (fun q => q.name = n)).isEmpty
        · simp [hsel] at h
        · simp [hsel]

theorem exit_status_always_zero_after_run_witness :
    (release_plugins_main "v1.0.0" false false true
      [⟨"p1", false, true, true, .ok none, allOk⟩] none).1 = 0 :=
  exit_status_always_zero_after_run "v1.0.0" false false true
    [⟨"p1", false, true, true, .ok none, allOk⟩] none (0, ["p1"]) (by decide)

/-- C3 counterexample: the input `"1.2.x"` has a body containing a
character that is neither a digit nor a dot, yet `normalize` accepts it
(returning `"v1.2.x"`) and the run proceeds to process its target and
report success — no `InvalidVersionFormat` failure exists in the code. -/
theorem invalid_body_accepted_cex :
    bodyValid "1.2.x" = false
    ∧ normalize "1.2.x" = "v1.2.x"
    ∧ release_plugins_main "1.2.x" false false true
        [⟨"p1", true, true, true, .ok none, allOk⟩] none
        = (0, some (1, [])) := by
  refine ⟨by decide, by decide, by decide⟩

/-- C3 amended: version normalization never fails: for every input
string, even one whose body contains characters other than digits and
dots, the run is not aborted — with a loadable configuration and at
least one enabled plugin, the plugin loop is reached and a summary is
produced. -/
theorem normalize_total_run_reaches_targets (s : String) (hasToken dryRun : Bool)
    (p : PluginSpec) (ps : List PluginSpec)
    (_hbody : bodyValid s = false) :
    ((release_plugins_main s hasToken dryRun true (p :: ps) none).2).isSome = true := by
  simp [release_plugins_main]

theorem normalize_total_run_reaches_targets_witness :
    bodyValid "1.2.x" = false
    ∧ ((release_plugins_main "1.2.x" false false true
        [⟨"p1", true, true, true, .ok none, allOk⟩] none).2).isSome = true :=
  ⟨by decide,
   normalize_total_run_reaches_targets "1.2.x" false false
     ⟨"p1", true, true, true, .ok none, allOk⟩ [] (by decide)⟩

/-- C1 counterexample: live execution of release_main.py with all
three resources present (and every confirmation answered yes) runs its
cleanup deletes as local tag, then remote tag, then release — the
reverse of the §4.3 plan order DeleteRelease, DeleteRemoteTag,
DeleteLocalTag — so live execution does not invoke the scheduled
mutating calls in plan order for main targets. -/
theorem main_live_cleanup_order_cex :
    (main_flow "v1.0.0" false true true false true true false true true true true
      (.ok (some 5)) allOk).2
      = [Call.deleteLocalTag "v1.0.0", Call.deleteRemoteTag "v1.0.0",
         Call.deleteRelease 5, Call.createLocalTag "v1.0.0", Call.pushTag "v1.0.0",
         Call.createRelease "v1.0.0" "v1.0.0" "Release v1.0.0 of lynx framework"]
    ∧ (main_flow "v1.0.0" false true true false true true false true true true true
        (.ok (some 5)) allOk).2
      ≠ [Call.deleteRelease 5, Call.deleteRemoteTag "v1.0.0",
         Call.deleteLocalTag "v1.0.0", Call.createLocalTag "v1.0.0",
         Call.pushTag "v1.0.0",
         Call.createRelease "v1.0.0" "v1.0.0" "Release v1.0.0 of lynx framework"] := by
  decide

/-- C1 amended: dry-run execution issues no mutating collaborator call
at all — neither in `process_plugin` (for any directory state, API
client, lookup result and collaborator outcomes) nor in
release_main.py's `main` (no tag command, no release request, no
banner write/commit); live execution invokes each scheduled mutating
call exactly once: for plugin targets in the §4.3 plan order, while in
release_main the cleanup deletes run in the reverse order — local tag,
then remote tag, then release — before create local tag, push tag and
create release. -/
theorem dry_run_never_mutates_live_follows_plan :
    (∀ (tag pn : String) (d g a : Bool) (lk : Except Unit (Option Nat)) (o : StepOutcome),
      traceOf (process_plugin tag pn d g a lk o true) = [])
    ∧ (∀ (v : String) (hasToken cNT unc cU be bn lt cl rt cr : Bool)
        (lk : Except Unit (Option Nat)) (o : StepOutcome),
        (main_flow v true hasToken cNT unc cU be bn lt cl rt cr lk o).2 = [])
    ∧ (∀ (tag pn : String) (a : Bool) (rel : Option Nat),
        traceOf (process_plugin tag pn true true a (.ok rel) allOk false)
          = (if a then
              (match rel with
               | some i => [Call.deleteRelease i]
               | none => []) else [])
            ++ [Call.deleteRemoteTag tag, Call.deleteLocalTag tag,
                Call.createLocalTag tag, Call.pushTag tag]
            ++ (if a then
                [Call.createRelease tag tag ("Release " ++ tag ++ " for " ++ pn)]
               else []))
    ∧ (∀ (v : String) (cNT cU be : Bool) (rel : Option Nat),
        main_flow v false true cNT false cU be false true true true true (.ok rel) allOk
          = (0, [Call.deleteLocalTag v, Call.deleteRemoteTag v]
              ++ (match rel with
                  | some i => [Call.deleteRelease i]
                  | none => [])
              ++ [Call.createLocalTag v, Call.pushTag v,
                  Call.createRelease v v ("Release " ++ v ++ " of lynx framework")])) := by
  refine ⟨?_, ?_, ?_, ?_⟩
  · intro tag pn d g a lk o
    cases d <;> cases g <;> cases a <;>
      rcases lk with e | r <;> try cases r <;> try skip
    all_goals
      simp [process_plugin, plugin_steps_2_to_6, traceOf,
        delete_remote_tag, delete_local_tag, create_local_tag, push_tag,
        create_release, delete_release]
  · intro v hasToken cNT unc cU be bn lt cl rt cr lk o
    cases hasToken <;> cases be <;> cases bn <;>
      rcases lk with e | r <;> try cases r <;> try skip
    all_goals
      simp [main_flow, main_tail, sync_banner_version,
        delete_release, create_release]
  · intro tag pn a rel
    cases a <;> rcases rel with _ | i <;>
      simp [process_plugin, plugin_steps_2_to_6, traceOf,
        delete_remote_tag, delete_local_tag, create_local_tag, push_tag,
        create_release, delete_release, allOk]
  · intro v cNT cU be rel
    cases be <;> rcases rel with _ | i <;>
      simp [main_flow, main_tail, sync_banner_version,
        delete_release, create_release, allOk]

/-- C4 counterexample: when a release exists and its deletion (cleanup
step 1) fails, `process_plugin` returns failure immediately — steps 2–6
are never attempted, so a step-1 cleanup failure does abort the plan. -/
theorem delete_release_failure_aborts_cex :
    process_plugin "v1.0.0" "p" true true true (.ok (some 5))
      ⟨false, true, true, true, true, true⟩ false
      = .ok (false, [Call.deleteRelease 5]) := by
  rfl

/-- C4 amended: failure of the remote-tag delete (step 2) or the
local-tag delete (step 3) never aborts the plan — their results are
ignored, so the remaining steps are all attempted and the target still
succeeds (in the code an absent tag makes the delete command fail with
only a warning); but failure of the release delete (step 1) aborts the
plan immediately and marks the target failed. -/
theorem tag_cleanup_failures_do_not_abort (tag pn : String) (b2 b3 a : Bool)
    (rel : Option Nat) :
    process_plugin tag pn true true a (.ok rel)
      ⟨true, b2, b3, true, true, true⟩ false
      = .ok (true,
          (if a then
            (match rel with
             | some i => [Call.deleteRelease i]
             | none => []) else [])
          ++ [Call.deleteRemoteTag tag, Call.deleteLocalTag tag,
              Call.createLocalTag tag, Call.pushTag tag]
          ++ (if a then
              [Call.createRelease tag tag ("Release " ++ tag ++ " for " ++ pn)]
             else [])) := by
  cases a <;> rcases rel with _ | i <;> cases b2 <;> cases b3 <;>
    simp [process_plugin, plugin_steps_2_to_6,
      delete_remote_tag, delete_local_tag, create_local_tag, push_tag,
      create_release, delete_release]

/-- C5 counterexample: with the release absent (and tags absent or not —
`process_plugin` never probes them), live execution still issues the
remote- and local-tag deletes unconditionally, so the plan for the
all-absent state is not `[CreateLocalTag, PushTag, CreateRelease]`. -/
theorem all_absent_plan_has_deletes_cex :
    traceOf (process_plugin "v1.0.0" "p" true true true (.ok none) allOk false)
      = [Call.deleteRemoteTag "v1.0.0", Call.deleteLocalTag "v1.0.0",
         Call.createLocalTag "v1.0.0", Call.pushTag "v1.0.0",
         Call.createRelease "v1.0.0" "v1.0.0" "Release v1.0.0 for p"]
    ∧ traceOf (process_plugin "v1.0.0" "p" true true true (.ok none) allOk false)
      ≠ [Call.createLocalTag "v1.0.0", Call.pushTag "v1.0.0",
         Call.createRelease "v1.0.0" "v1.0.0" "Release v1.0.0 for p"] := by
  decide

/-- C5 amended: in release_main.py the plan for the all-absent state is
exactly `[CreateLocalTag, PushTag, CreateRelease]` with no delete
action; in release_plugins.py the tag deletes are attempted
unconditionally, so the all-absent plan there is
`[DeleteRemoteTag, DeleteLocalTag, CreateLocalTag, PushTag,
CreateRelease]` (only the release delete is conditional on the observed
state). -/
theorem all_absent_plan_amended (v tag pn : String) (cNT cU be cl cr : Bool) :
    main_flow v false true cNT false cU be false false cl false cr (.ok none) allOk
      = (0, [Call.createLocalTag v, Call.pushTag v,
             Call.createRelease v v ("Release " ++ v ++ " of lynx framework")])
    ∧ traceOf (process_plugin tag pn true true true (.ok none) allOk false)
      = [Call.deleteRemoteTag tag, Call.deleteLocalTag tag,
         Call.createLocalTag tag, Call.pushTag tag,
         Call.createRelease tag tag ("Release " ++ tag ++ " for " ++ pn)] := by
  constructor
  · cases be <;>
      simp [main_flow, main_tail, sync_banner_version, create_release, allOk]
  · simp [process_plugin, plugin_steps_2_to_6, traceOf,
      delete_remote_tag, delete_local_tag, create_local_tag, push_tag,
      create_release, allOk]

/-- C6: for every observed state with the release present (in
particular the all-present state — `process_plugin` never reads tag
existence, so the two tag flags are recorded here as explicit
hypotheses), the live plan is exactly the six steps DeleteRelease,
DeleteRemoteTag, DeleteLocalTag, CreateLocalTag, PushTag,
CreateRelease, in that order. -/
theorem all_present_plan_six_steps (localTagExists remoteTagExists : Bool)
    (i : Nat) (tag pn : String)
    (_hl : localTagExists = true) (_hr : remoteTagExists = true) :
    process_plugin tag pn true true true (.ok (some i)) allOk false
      = .ok (true,
          [Call.deleteRelease i, Call.deleteRemoteTag tag, Call.deleteLocalTag tag,
           Call.createLocalTag tag, Call.pushTag tag,
           Call.createRelease tag tag ("Release " ++ tag ++ " for " ++ pn)]) := by
  simp [process_plugin, plugin_steps_2_to_6,
    delete_remote_tag, delete_local_tag, create_local_tag, push_tag,
    create_release, delete_release, allOk]

theorem all_present_plan_six_steps_witness :
    process_plugin "v1.0.0" "p" true true true (.ok (some 5)) allOk false
      = .ok (true,
          [Call.deleteRelease 5, Call.deleteRemoteTag "v1.0.0",
           Call.deleteLocalTag "v1.0.0", Call.createLocalTag "v1.0.0",
           Call.pushTag "v1.0.0",
           Call.createRelease "v1.0.0" "v1.0.0" "Release v1.0.0 for p"]) := by
  simpa using all_present_plan_six_steps true true 5 "v1.0.0" "p" rfl rfl

/-- C7: when a required step fails — step 4 (create local tag), step 5
(push tag) or step 6 (create release) — `process_plugin` stops there:
the trace ends at the failed step, no later step is attempted, and the
target's overall success flag is false. (The release-delete outcome is
assumed successful so that execution reaches the required steps.) -/
theorem required_step_failure_halts (tag pn : String) (a : Bool) (rel : Option Nat)
    (o : StepOutcome) (hdr : o.deleteReleaseOk = true) :
    (o.createLocalTagOk = false →
      process_plugin tag pn true true a (.ok rel) o false
        = .ok (false,
            (if a then
              (match rel with
               | some i => [Call.deleteRelease i]
               | none => []) else [])
            ++ [Call.deleteRemoteTag tag, Call.deleteLocalTag tag,
                Call.createLocalTag tag]))
    ∧ (o.createLocalTagOk = true → o.pushTagOk = false →
      process_plugin tag pn true true a (.ok rel) o false
        = .ok (false,
            (if a then
              (match rel with
               | some i => [Call.deleteRelease i]
               | none => []) else [])
            ++ [Call.deleteRemoteTag tag, Call.deleteLocalTag tag,
                Call.createLocalTag tag, Call.pushTag tag]))
    ∧ (a = true → o.createLocalTagOk = true → o.pushTagOk = true →
       o.createReleaseOk = false →
      process_plugin tag pn true true a (.ok rel) o false
        = .ok (false,
            (match rel with
             | some i => [Call.deleteRelease i]
             | none => [])
            ++ [Call.deleteRemoteTag tag, Call.deleteLocalTag tag,
                Call.createLocalTag tag, Call.pushTag tag,
                Call.createRelease tag tag ("Release " ++ tag ++ " for " ++ pn)])) := by
  obtain ⟨o1, o2, o3, o4, o5, o6⟩ := o
  simp only [] at hdr
  subst hdr
  cases a <;> rcases rel with _ | i <;> cases o4 <;> cases o5 <;> cases o6 <;>
    simp [process_plugin, plugin_steps_2_to_6,
      delete_remote_tag, delete_local_tag, create_local_tag, push_tag,
      create_release, delete_release]

theorem required_step_failure_halts_witness :
    process_plugin "v1.0.0" "p" true true true (.ok (some 5))
      ⟨true, true, true, false, true, true⟩ false
      = .ok (false,
          [Call.deleteRelease 5, Call.deleteRemoteTag "v1.0.0",
           Call.deleteLocalTag "v1.0.0", Call.createLocalTag "v1.0.0"]) := by
  simpa using
    (required_step_failure_halts "v1.0.0" "p" true (some 5)
      ⟨true, true, true, false, true, true⟩ rfl).1 rfl

/-- C9 counterexample: status 304 is not a success status and is not
404, yet `get_release_by_tag` returns a successful "no release"
observation instead of raising — `raise_for_status` only raises for
statuses in [400, 600). -/
theorem non_error_status_not_raised_cex :
    get_release_by_tag 304 7 = .ok none
    ∧ ¬(200 ≤ 304 ∧ 304 < 300)
    ∧ (304 : Nat) ≠ 404 := by
  refine ⟨rfl, by decide, by decide⟩

/-- C9 amended: the release lookup returns the release on 200 and a
successful "no release" observation on 404; it raises exactly for the
statuses in [400, 600) other than 404 (other non-200 statuses also
yield "no release"); and in the multi-target run a lookup exception
fails only its own target: the remaining targets' outcomes are
unchanged. -/
theorem release_lookup_amended (st rid : Nat) :
    (get_release_by_tag st rid = .error () ↔ (400 ≤ st ∧ st < 600 ∧ st ≠ 404))
    ∧ get_release_by_tag 404 rid = .ok none
    ∧ get_release_by_tag 200 rid = .ok (some rid)
    ∧ (∀ (p : PluginSpec) (rest : List PluginSpec) (v : String) (d : Bool),
        p.lookup = .error () →
        runTargets v true d (p :: rest)
          = ((runTargets v true d rest).1, p.name :: (runTargets v true d rest).2)) := by
  refine ⟨?_, ?_, ?_, ?_⟩
  · unfold get_release_by_tag
    split_ifs with h1 h2 h3 <;> simp <;> omega
  · simp [get_release_by_tag]
  · simp [get_release_by_tag]
  · intro p rest v d hl
    obtain ⟨n, de, gr, rv, lk, oc⟩ := p
    simp only [] at hl
    subst hl
    have hfail : process_target v true d ⟨n, de, gr, rv, .error (), oc⟩ = false := by
      cases de <;> cases gr <;> cases rv <;>
        simp [process_target, process_plugin]
    simp [runTargets, hfail]

theorem release_lookup_amended_witness :
    get_release_by_tag 404 7 = .ok none
    ∧ runTargets "v1" true false [⟨"p1", true, true, true, .error (), allOk⟩]
        = (0, ["p1"]) := by
  refine ⟨(release_lookup_amended 404 7).2.1, ?_⟩
  have h := (release_lookup_amended 404 7).2.2.2
    ⟨"p1", true, true, true, .error (), allOk⟩ [] "v1" false rfl
  simpa [runTargets] using h

/-- C10: without a hosted-release token (`hasApi = false`) the release
steps are skipped entirely — the trace contains no release request —
while the tag steps still run; the target's overall success is exactly
the success of the two required tag steps (create local tag and push),
and with all collaborators succeeding the target succeeds with exactly
the four tag calls and no release created. -/
theorem no_token_skips_release_steps (tag pn : String)
    (lk : Except Unit (Option Nat)) (o : StepOutcome) :
    okOf (process_plugin tag pn true true false lk o false)
      = (o.createLocalTagOk && o.pushTagOk)
    ∧ (traceOf (process_plugin tag pn true true false lk o false)).all
        (fun c => !(isReleaseCall c)) = true
    ∧ process_plugin tag pn true true false lk allOk false
      = .ok (true, [Call.deleteRemoteTag tag, Call.deleteLocalTag tag,
                    Call.createLocalTag tag, Call.pushTag tag]) := by
  obtain ⟨o1, o2, o3, o4, o5, o6⟩ := o
  cases o4 <;> cases o5 <;>
    simp [process_plugin, plugin_steps_2_to_6, okOf, traceOf, isReleaseCall,
      delete_remote_tag, delete_local_tag, create_local_tag, push_tag,
      create_release, allOk]

end Lynx
